import Mathlib

/-!
Shallow embedding of the CashFlow anomaly-scoring core
(`agents/risk_agent.py`, class `RiskAgent`) together with the piece of
configuration it reads (`config.py`, `Config.ANOMALY_THRESHOLD`).

Modelling conventions:
* Python floats are modelled as `ℚ` (the claims under scrutiny are exact
  arithmetic facts about thresholds and ratios, not rounding facts).
* A transaction's `created_at` ISO timestamp is modelled as the hour-of-day
  that `datetime.fromisoformat(...).hour` would yield, `none` standing for a
  missing or unparsable timestamp (in which case the detector's `try/except`
  catches the raised exception).
* Dictionary `.get(k, d)` accesses become `Option.getD`; direct `[k]`
  indexing of a field that every stored record carries becomes a plain field.
* The sklearn `IsolationForest` is an external library; it is modelled as an
  opaque-to-the-core function parameter `forest : ForestModel` receiving the
  contamination rate, the training amounts and the queried amount, and
  returning whether the prediction is `-1` (outlier).  The database service
  is likewise external: the historical window is a plain argument and the
  `create_alert` side effect is returned as a list of emitted alerts.
* `numpy.std` is `Real.sqrt` of the (population) variance; to keep the
  detectors computable, a comparison `|x - mean| / std > 3` (with the
  source's `if std > 0` guard) is embedded as the equivalent rational test
  `0 < var ∧ (x - mean)^2 > 9 * var`, and the correspondence with the
  real-valued z-score is proved in the theorems.
-/

/-- One stored financial transaction, as the detectors read it.
`quantity` and `item` are read with `.get` (may be absent); `amount` is read
by direct indexing (always present on stored records); `created_at` is the
parsed hour-of-day, `none` when missing or unparsable. -/
structure Transaction where
  amount : ℚ
  quantity : Option ℚ := none
  item : Option String := none
  created_at : Option Nat := none
  deriving DecidableEq, Repr

/-- Entities extracted by the NLP service, as `check_price_deviation` reads
them: `entities.get('item')` and `entities.get('quantity', 0)`. -/
structure Entities where
  item : Option String := none
  quantity : Option ℚ := none
  deriving DecidableEq, Repr

/-- Result dictionary returned by one detector.  Evidence fields that a given
detector does not set stay `none` (absent key).  The float-valued `std` /
`z_score` evidence entries are irrational in general and are not needed by
any claim, so they are elided; the anomaly flag logic is embedded exactly. -/
structure DetectorResult where
  check : String
  is_anomaly : Bool
  value : Option ℚ := none
  mean : Option ℚ := none
  hour : Option Nat := none
  typical_hours : Option (List Nat) := none
  current_price : Option ℚ := none
  mean_price : Option ℚ := none
  deviation_pct : Option ℚ := none
  error : Option String := none
  deriving DecidableEq, Repr

/-- One `db.create_alert(user_id, type, message, severity)` call (the
`user_id` threading is glue and is elided). -/
structure Alert where
  alert_type : String
  message : String
  severity : String
  deriving DecidableEq, Repr

/-- The response dictionary built by `analyze_transaction`.  The initial
dictionary has no `message` and no `details` key (`none` / `[]` here); the
unused `'alerts': []` entry of the Python dict is elided. -/
structure Response where
  anomaly_detected : Bool
  risk_score : ℚ
  message : Option String := none
  details : List DetectorResult := []
  deriving DecidableEq, Repr

/-- `config.py` line 28: `ANOMALY_THRESHOLD = 0.15` (Isolation Forest
contamination rate). -/
def Config.ANOMALY_THRESHOLD : ℚ := 15/100

/-- The slice of `RiskAgent` state the detectors read. -/
structure RiskAgent where
  anomaly_threshold : ℚ
  deriving DecidableEq, Repr

/-- `RiskAgent.__init__`: `self.anomaly_threshold = Config.ANOMALY_THRESHOLD`. -/
def RiskAgent.init : RiskAgent := ⟨Config.ANOMALY_THRESHOLD⟩

/-- External model of `IsolationForest(contamination=c).fit(xs).predict([[x]])
== -1`: contamination rate → training data → queried value → is-outlier. -/
abbrev ForestModel := ℚ → List ℚ → ℚ → Bool

/-- `np.mean` of a list (population mean). -/
def listMean (xs : List ℚ) : ℚ := xs.sum / xs.length

/-- Population variance, so that `np.std xs = Real.sqrt (listVar xs)`. -/
def listVar (xs : List ℚ) : ℚ :=
  (xs.map (fun x => (x - listMean xs) ^ 2)).sum / xs.length

/-- `[txn['amount'] for txn in historical if txn['amount'] > 0]`. -/
def positiveAmounts (historical : List Transaction) : List ℚ :=
  (historical.filter (fun τ => 0 < τ.amount)).map Transaction.amount

/-- `[txn['quantity'] for txn in historical if txn.get('quantity', 0) > 0]`. -/
def positiveQuantities (historical : List Transaction) : List ℚ :=
  (historical.filter (fun τ => 0 < τ.quantity.getD 0)).map
    (fun τ => τ.quantity.getD 0)

/-- `check_amount_anomaly`: with fewer than 10 positive historical amounts it
returns the bare non-anomalous result; otherwise the Isolation Forest is fit
with `contamination=self.anomaly_threshold` and queried on the current
amount.  (The `std` evidence entry is elided, see module comment.) -/
def check_amount_anomaly (agent : RiskAgent) (forest : ForestModel)
    (transaction : Transaction) (historical : List Transaction) :
    DetectorResult :=
  let amounts := positiveAmounts historical
  if amounts.length < 10 then
    { check := "amount", is_anomaly := false }
  else
    let current_amount := transaction.amount
    { check := "amount"
      is_anomaly := forest agent.anomaly_threshold amounts current_amount
      value := some current_amount
      mean := some (listMean amounts) }

/-- `check_quantity_anomaly`: z-score test on positive historical quantities.
`z_score = abs((current - mean) / std) if std > 0 else 0` and
`is_anomaly = z_score > 3` are embedded as the equivalent rational test
`0 < var ∧ (current - mean)^2 > 9 * var` (`std = Real.sqrt var`). -/
def check_quantity_anomaly (transaction : Transaction)
    (historical : List Transaction) : DetectorResult :=
  let quantities := positiveQuantities historical
  if quantities.length < 10 then
    { check := "quantity", is_anomaly := false }
  else
    let mean_qty := listMean quantities
    let var_qty := listVar quantities
    let current_qty := transaction.quantity.getD 0
    { check := "quantity"
      is_anomaly :=
        decide (0 < var_qty ∧ (current_qty - mean_qty) ^ 2 > 9 * var_qty)
      value := some current_qty }

/-- The list comprehension
`[datetime.fromisoformat(txn['created_at']).hour for txn in historical]`:
if any historical timestamp is missing or unparsable the comprehension raises
(caught by the detector's `except`), modelled by `none`. -/
def parseHours : List Transaction → Option (List Nat)
  | [] => some []
  | τ :: rest =>
    match τ.created_at, parseHours rest with
    | some h, some hs => some (h :: hs)
    | _, _ => none

/-- `check_unusual_timing`: flag iff the hour is in the off-hours band
(`hour >= 23 or hour <= 5`) and never appears among the historical hours.
Any parse failure is caught and yields a non-anomalous result carrying an
error note.  (`list(set(...))` is modelled by `List.dedup`; its element
order is irrelevant to every claim.) -/
def check_unusual_timing (transaction : Transaction)
    (historical : List Transaction) : DetectorResult :=
  match transaction.created_at, parseHours historical with
  | some txn_hour, some historical_hours =>
    let is_unusual := 23 ≤ txn_hour ∨ txn_hour ≤ 5
    let never_used := txn_hour ∉ historical_hours
    { check := "timing"
      is_anomaly := decide (is_unusual ∧ never_used)
      hour := some txn_hour
      typical_hours := some historical_hours.dedup }
  | _, _ =>
    { check := "timing", is_anomaly := false
      error := some "timestamp parse error" }

/-- Python `str.lower()` character-wise (ASCII case folding suffices for the
item names compared here). -/
def strLower (s : String) : String := String.mk (s.data.map Char.toLower)

/-- The historical same-item prices-per-unit loop of `check_price_deviation`:
keep `txn.get('amount', 0) / txn.get('quantity', 0)` for every historical
transaction whose `item` matches case-insensitively and whose quantity is
positive. -/
def sameItemPrices (item : String) (historical : List Transaction) :
    List ℚ :=
  historical.filterMap (fun τ =>
    if strLower (τ.item.getD "") = strLower item then
      let qty := τ.quantity.getD 0
      let amt := τ.amount
      if 0 < qty then some (amt / qty) else none
    else none)

/-- `check_price_deviation`.  Note the exact source guards: the item gate is
`if not item` (absent *or empty* string), the quantity gate is
`if current_qty == 0` (only exact zero short-circuits), and the deviation is
`abs((current_price - mean_price) / mean_price) if mean_price > 0 else 0`. -/
def check_price_deviation (transaction : Transaction)
    (historical : List Transaction) (entities : Entities) : DetectorResult :=
  let item := entities.item.getD ""
  if item = "" then
    { check := "price", is_anomaly := false }
  else
    let historical_prices := sameItemPrices item historical
    if historical_prices.length < 3 then
      { check := "price", is_anomaly := false }
    else
      let current_qty := entities.quantity.getD 0
      let current_amt := transaction.amount
      if current_qty = 0 then
        { check := "price", is_anomaly := false }
      else
        let current_price := current_amt / current_qty
        let mean_price := listMean historical_prices
        let deviation :=
          if 0 < mean_price then |(current_price - mean_price) / mean_price|
          else 0
        { check := "price"
          is_anomaly := decide (deviation > 1/2)
          current_price := some current_price
          mean_price := some mean_price
          deviation_pct := some (deviation * 100) }

/-- Fixed-point decimal rendering standing for Python's `f"{x:.df}"`
(the claims fix the clause structure, not the digit strings). -/
def fmtFixed (d : Nat) (q : ℚ) : String :=
  let sign := if q < 0 then "-" else ""
  let scaled : Int := (|q| * (10 : ℚ) ^ d + 1/2).floor
  let base : Int := (10 : ℤ) ^ d
  let ipart := toString (scaled / base)
  let fpart := toString ((scaled % base).toNat)
  let pad := String.mk (List.replicate (d - fpart.length) '0')
  if d = 0 then sign ++ ipart else sign ++ ipart ++ "." ++ pad ++ fpart

/-- The `elif` chain of `generate_risk_message` building one clause for one
flagged detector; an unrecognized `check` name contributes no clause. -/
def riskClause (r : DetectorResult) : Option String :=
  if r.check = "amount" then
    some ("Unusual amount: ₹" ++ fmtFixed 2 (r.value.getD 0))
  else if r.check = "quantity" then
    some ("Unusual quantity: " ++ fmtFixed 1 (r.value.getD 0))
  else if r.check = "timing" then
    some ("Unusual timing: " ++ toString (r.hour.getD 0) ++ ":00")
  else if r.check = "price" then
    some ("Price deviation: " ++ fmtFixed 1 (r.deviation_pct.getD 0) ++ "%")
  else none

/-- `generate_risk_message`. -/
def generate_risk_message (checks : List DetectorResult) : String :=
  let anomalies := checks.filter (fun r => r.is_anomaly)
  if anomalies.isEmpty then "Transaction appears normal"
  else
    "Suspicious transaction detected: " ++
      String.intercalate ", " (anomalies.filterMap riskClause)

/-- The Price-Deviation anomaly flag as the spec describes it, amended only
in its quantity gate: the source gate is `if current_qty == 0`, so the
precondition that holds on the code is `quantity ≠ 0` (a negative extracted
quantity is not short-circuited), not `quantity > 0`.  The remaining clauses
follow the spec's words: item name present, at least 3 historical same-item
positive-quantity prices, and deviation `|current - mean| / mean` (0 when
the mean is 0) strictly above 0.5. -/
def price_flag_spec (t : Transaction) (H : List Transaction)
    (e : Entities) : Prop :=
  e.item.getD "" ≠ "" ∧
  e.quantity.getD 0 ≠ 0 ∧
  3 ≤ (sameItemPrices (e.item.getD "") H).length ∧
  1/2 <
    (if listMean (sameItemPrices (e.item.getD "") H) = 0 then 0
     else
       |t.amount / e.quantity.getD 0 -
           listMean (sameItemPrices (e.item.getD "") H)| /
         listMean (sameItemPrices (e.item.getD "") H))

/-- `analyze_transaction`, with the historical window (the
`get_transactions_range` result) passed in and the `create_alert` side
effects returned as the second component. -/
def analyze_transaction (agent : RiskAgent) (forest : ForestModel)
    (transaction : Transaction) (entities : Entities)
    (historical : List Transaction) : Response × List Alert :=
  if historical.length < 10 then
    ({ anomaly_detected := false, risk_score := 0 }, [])
  else
    let checks : List DetectorResult :=
      [check_amount_anomaly agent forest transaction historical,
       check_quantity_anomaly transaction historical,
       check_unusual_timing transaction historical,
       check_price_deviation transaction historical entities]
    let anomaly_count := checks.countP (fun r => r.is_anomaly)
    let risk_score : ℚ := (anomaly_count : ℚ) / (checks.length : ℚ)
    if risk_score > 1/2 then
      let msg := generate_risk_message checks
      ({ anomaly_detected := true, risk_score := risk_score,
         message := some msg, details := checks },
       [{ alert_type := "fraud_risk", message := msg, severity := "high" }])
    else
      ({ anomaly_detected := false, risk_score := risk_score,
         details := checks }, [])

/-! Concrete inputs used by counterexamples and witnesses. -/

/-- A transaction carrying only an amount (no quantity, item or timestamp). -/
def txnPlain : Transaction := { amount := 1 }

/-- An isolation-forest model that never reports an outlier. -/
def forestFalse : ForestModel := fun _ _ _ => false

/-- An isolation-forest model that always reports an outlier. -/
def forestTrue : ForestModel := fun _ _ _ => true

/-- A transaction stamped at 02:00 (off-hours). -/
def txnHour2 : Transaction := { amount := 1, created_at := some 2 }

/-- Three daytime historical transactions (hours 9, 10, 14). -/
def histDaytime : List Transaction :=
  [{ amount := 1, created_at := some 9 },
   { amount := 1, created_at := some 10 },
   { amount := 1, created_at := some 14 }]

/-- Current transaction for the price-deviation counterexample. -/
def txnTen : Transaction := { amount := 10 }

/-- Extracted entities with a *negative* quantity. -/
def entNegQty : Entities := { item := some "rice", quantity := some (-1) }

/-- A historical sale of 1 rice for 10 (unit price 10). -/
def riceTxn : Transaction :=
  { amount := 10, quantity := some 1, item := some "rice" }

/-- Three historical rice transactions with unit price 10. -/
def histRice : List Transaction := [riceTxn, riceTxn, riceTxn]

/-- Historical transaction with quantity 1. -/
def qtyTxn1 : Transaction := { amount := 5, quantity := some 1 }

/-- Historical transaction with quantity 2. -/
def qtyTxn2 : Transaction := { amount := 5, quantity := some 2 }

/-- Ten positive historical quantities `[1,1,1,1,1,1,1,1,1,2]`
(mean 11/10, variance 9/100, so the mean exceeds 3 standard deviations). -/
def histQty : List Transaction :=
  [qtyTxn1, qtyTxn1, qtyTxn1, qtyTxn1, qtyTxn1,
   qtyTxn1, qtyTxn1, qtyTxn1, qtyTxn1, qtyTxn2]

/-- A daytime (09:00) historical transaction with no quantity. -/
def busyTxn : Transaction := { amount := 1, created_at := some 9 }

/-- Ten daytime historical transactions. -/
def histBusy : List Transaction :=
  [busyTxn, busyTxn, busyTxn, busyTxn, busyTxn,
   busyTxn, busyTxn, busyTxn, busyTxn, busyTxn]

/-- Historical transaction at 09:00 with amount 10 and quantity 1. -/
def sevenA : Transaction :=
  { amount := 10, quantity := some 1, created_at := some 9 }

/-- Historical transaction at 09:00 with amount 10 and quantity 2. -/
def sevenB : Transaction :=
  { amount := 10, quantity := some 2, created_at := some 9 }

/-- Ten parsable daytime historical transactions with positive amounts and
positive quantities `[1,1,1,1,1,1,1,1,1,2]`. -/
def histSeven : List Transaction :=
  [sevenA, sevenA, sevenA, sevenA, sevenA,
   sevenA, sevenA, sevenA, sevenA, sevenB]

/-- An off-hours transaction with an extreme quantity. -/
def txnSeven : Transaction :=
  { amount := 10, quantity := some 100, created_at := some 2 }

/-! Helper lemmas. -/

/-- The amount detector sets no error note on any path. -/
lemma check_amount_anomaly_error_none (agent : RiskAgent)
    (forest : ForestModel) (t : Transaction) (H : List Transaction) :
    (check_amount_anomaly agent forest t H).error = none := by
  simp only [check_amount_anomaly]
  split <;> rfl

/-- The quantity detector sets no error note on any path. -/
lemma check_quantity_anomaly_error_none (t : Transaction)
    (H : List Transaction) :
    (check_quantity_anomaly t H).error = none := by
  simp only [check_quantity_anomaly]
  split <;> rfl

/-- The price detector sets no error note on any path. -/
lemma check_price_deviation_error_none (t : Transaction)
    (H : List Transaction) (e : Entities) :
    (check_price_deviation t H e).error = none := by
  simp only [check_price_deviation]
  split
  · rfl
  · split
    · rfl
    · split <;> rfl

/-- On the timing detector's error path, the flag is `false`. -/
lemma check_unusual_timing_error_flag (t : Transaction)
    (H : List Transaction) :
    (check_unusual_timing t H).error.isSome →
      (check_unusual_timing t H).is_anomaly = false := by
  unfold check_unusual_timing
  rcases t.created_at with _ | h <;> rcases hp : parseHours H with _ | hs <;>
    simp

/-! ## C2 — insufficient history short-circuit -/

/-- C2: with fewer than 10 historical transactions, `analyze_transaction`
returns the initial verdict (risk score 0, no anomaly, no detector result,
no message) and emits no alert, whatever the current transaction, entities,
agent and outlier model are. -/
theorem analyze_transaction_insufficient_history (agent : RiskAgent)
    (forest : ForestModel) (t : Transaction) (e : Entities)
    (H : List Transaction) (h : H.length < 10) :
    analyze_transaction agent forest t e H =
      ({ anomaly_detected := false, risk_score := 0, message := none,
         details := [] }, []) := by
  simp [analyze_transaction, h]

/-- Witness for C2 at the empty historical window. -/
theorem analyze_transaction_insufficient_history_witness :
    ([] : List Transaction).length < 10 ∧
    analyze_transaction RiskAgent.init forestFalse txnPlain {} [] =
      ({ anomaly_detected := false, risk_score := 0, message := none,
         details := [] }, []) :=
  ⟨by simp,
   analyze_transaction_insufficient_history RiskAgent.init forestFalse
     txnPlain {} [] (by simp)⟩

/-! ## C8 — amount detector gate and contamination parameter -/

/-- C8: with fewer than 10 positive historical amounts the amount detector
returns `false` with no evidence; otherwise its flag is the fitted model's
prediction at the current amount, with the contamination taken from the
agent's configured threshold, whose configured default is
`Config.ANOMALY_THRESHOLD = 0.15`. -/
theorem check_amount_anomaly_spec (θ : ℚ) (forest : ForestModel)
    (t : Transaction) (H : List Transaction) :
    ((positiveAmounts H).length < 10 →
      check_amount_anomaly ⟨θ⟩ forest t H =
        { check := "amount", is_anomaly := false }) ∧
    (10 ≤ (positiveAmounts H).length →
      (check_amount_anomaly ⟨θ⟩ forest t H).is_anomaly =
        forest θ (positiveAmounts H) t.amount) ∧
    RiskAgent.init.anomaly_threshold = 15/100 := by
  refine ⟨fun h => ?_, fun h => ?_,
    by norm_num [RiskAgent.init, Config.ANOMALY_THRESHOLD]⟩
  · simp [check_amount_anomaly, h]
  · simp [check_amount_anomaly, Nat.not_lt.mpr h]

/-- Witness for C8: empty window (gate) and the default threshold value. -/
theorem check_amount_anomaly_spec_witness :
    (positiveAmounts []).length < 10 ∧
    check_amount_anomaly ⟨15/100⟩ forestFalse txnPlain [] =
      { check := "amount", is_anomaly := false } ∧
    RiskAgent.init.anomaly_threshold = 15/100 :=
  ⟨by simp [positiveAmounts],
   (check_amount_anomaly_spec (15/100) forestFalse txnPlain []).1
     (by simp [positiveAmounts]),
   (check_amount_anomaly_spec (15/100) forestFalse txnPlain []).2.2⟩

/-! ## C9 — missing quantity is scored as quantity 0 -/

/-- C9: the quantity detector reads the current quantity with
`.get('quantity', 0)`, so a transaction without the field behaves exactly as
one with quantity 0; on the concrete window `histQty` (ten positive
quantities, positive mean, variance `9/100`, and mean exceeding three
standard deviations) a quantity-less transaction is flagged. -/
theorem check_quantity_anomaly_missing_quantity :
    (∀ (t : Transaction) (H : List Transaction), t.quantity = none →
      check_quantity_anomaly t H =
        check_quantity_anomaly { t with quantity := some 0 } H) ∧
    txnPlain.quantity = none ∧
    10 ≤ (positiveQuantities histQty).length ∧
    0 < listVar (positiveQuantities histQty) ∧
    9 * listVar (positiveQuantities histQty) <
      listMean (positiveQuantities histQty) ^ 2 ∧
    (check_quantity_anomaly txnPlain histQty).is_anomaly = true := by
  have hq : positiveQuantities histQty = [1, 1, 1, 1, 1, 1, 1, 1, 1, 2] := by
    norm_num [positiveQuantities, histQty, qtyTxn1, qtyTxn2]
  have hmean : listMean [(1:ℚ), 1, 1, 1, 1, 1, 1, 1, 1, 2] = 11/10 := by
    norm_num [listMean]
  have hvar : listVar [(1:ℚ), 1, 1, 1, 1, 1, 1, 1, 1, 2] = 9/100 := by
    rw [listVar, hmean]; norm_num
  refine ⟨fun t H ht => ?_, rfl, by rw [hq]; norm_num,
    by rw [hq, hvar]; norm_num, by rw [hq, hvar, hmean]; norm_num, ?_⟩
  · simp [check_quantity_anomaly, ht]
  · simp only [check_quantity_anomaly, hq, hmean, hvar]
    norm_num [txnPlain]

/-- Witness for C9's universally quantified part at a concrete input. -/
theorem check_quantity_anomaly_missing_quantity_witness :
    check_quantity_anomaly txnPlain histQty =
      check_quantity_anomaly { txnPlain with quantity := some 0 } histQty :=
  check_quantity_anomaly_missing_quantity.1 txnPlain histQty rfl

/-! ## C10 — price detector ignores the transaction's own quantity -/

/-- C10: `check_price_deviation` reads the current quantity only from the
extracted entities; its result depends on the current transaction only
through `amount`, so transactions equal up to their own `quantity` (indeed,
up to everything but `amount`) yield identical results. -/
theorem check_price_deviation_ignores_transaction_quantity
    (t t' : Transaction) (H : List Transaction) (e : Entities)
    (h : t.amount = t'.amount) :
    check_price_deviation t H e = check_price_deviation t' H e := by
  simp only [check_price_deviation, h]

/-- Witness for C10: two transactions differing only in their own quantity
field produce the same detector result. -/
theorem check_price_deviation_ignores_transaction_quantity_witness :
    ({ amount := 5, quantity := some 2 } : Transaction).amount =
      ({ amount := 5, quantity := some 99 } : Transaction).amount ∧
    check_price_deviation { amount := 5, quantity := some 2 } histRice
        entNegQty =
      check_price_deviation { amount := 5, quantity := some 99 } histRice
        entNegQty :=
  ⟨rfl,
   check_price_deviation_ignores_transaction_quantity _ _ histRice entNegQty
     rfl⟩

/-! ## C3 — unusual-timing conjunction -/

/-- C3: when the current timestamp parses to `hour` and the historical
timestamps parse to `hours`, the timing flag is set iff the hour lies in the
off-hours band `[23:00-05:00]` (both endpoints included) **and** that exact
hour appears nowhere among the historical hours. -/
theorem check_unusual_timing_spec (t : Transaction) (H : List Transaction)
    (hour : Nat) (hours : List Nat) (hcur : t.created_at = some hour)
    (hH : parseHours H = some hours) :
    (check_unusual_timing t H).is_anomaly = true ↔
      ((23 ≤ hour ∨ hour ≤ 5) ∧ hour ∉ hours) := by
  simp [check_unusual_timing, hcur, hH]

/-- Witness for C3: hour 2 against daytime history {9, 10, 14} (flagged). -/
theorem check_unusual_timing_spec_witness :
    txnHour2.created_at = some 2 ∧
    parseHours histDaytime = some [9, 10, 14] ∧
    ((check_unusual_timing txnHour2 histDaytime).is_anomaly = true ↔
      ((23 ≤ 2 ∨ 2 ≤ 5) ∧ 2 ∉ [9, 10, 14])) :=
  ⟨rfl, rfl, check_unusual_timing_spec txnHour2 histDaytime 2 _ rfl rfl⟩

/-! ## C4 — price-deviation preconditions (corrected) -/

/-- C4 counterexample: the source gate is `if current_qty == 0`, not
`quantity > 0`; with extracted quantity `-1`, item `rice`, current amount 10
and three historical unit-10 rice prices, every other precondition of the
claim holds and the detector flags, though the claim demands `false` for a
non-positive quantity. -/
theorem check_price_deviation_negative_quantity_cex :
    entNegQty.quantity.getD 0 ≤ 0 ∧
    entNegQty.item = some "rice" ∧
    3 ≤ (sameItemPrices "rice" histRice).length ∧
    (check_price_deviation txnTen histRice entNegQty).is_anomaly = true := by
  have h1 : sameItemPrices "rice" histRice = [10, 10, 10] := by
    norm_num [sameItemPrices, histRice, riceTxn, List.filterMap_cons]
  have hne : ("rice" : String) ≠ "" := by decide
  refine ⟨by norm_num [entNegQty], rfl, by rw [h1]; norm_num, ?_⟩
  norm_num [check_price_deviation, entNegQty, txnTen, h1, hne, listMean]

/-- C4 amended: the price-deviation flag is set iff the item name is present
and non-empty, the extracted quantity is non-zero (the source's `== 0` gate;
zero short-circuits, a negative quantity does not), at least 3 historical
same-item positive-quantity prices exist, and the deviation
`|current - mean| / mean` (0 when the mean is 0) exceeds 1/2 — the statement
`price_flag_spec` obtained from the claim by weakening only its quantity
precondition from `> 0` to `≠ 0`. -/
theorem check_price_deviation_flag_spec (t : Transaction)
    (H : List Transaction) (e : Entities) :
    (check_price_deviation t H e).is_anomaly = true ↔
      price_flag_spec t H e := by
  unfold check_price_deviation price_flag_spec
  by_cases h1 : e.item.getD "" = ""
  · simp [h1]
  · rw [if_neg h1]
    by_cases h2 : (sameItemPrices (e.item.getD "") H).length < 3
    · simp [if_pos h2, h1, h2, Nat.not_le.mpr h2]
    · rw [if_neg h2]
      by_cases h3 : e.quantity.getD 0 = 0
      · simp [h3]
      · rw [if_neg h3]
        simp only [DetectorResult.mk.injEq, decide_eq_true_eq, h1, h3,
          Nat.not_lt.mp h2, ne_eq, not_false_iff, true_and]
        set c := t.amount / e.quantity.getD 0 with hc
        set m := listMean (sameItemPrices (e.item.getD "") H) with hm
        rcases lt_trichotomy m 0 with hlt | heq | hgt
        · have hm0 : ¬ m = 0 := hlt.ne
          have hnlt : ¬ 0 < m := not_lt.mpr hlt.le
          rw [if_neg hnlt, if_neg hm0]
          have hnp : |c - m| / m ≤ 0 :=
            div_nonpos_of_nonneg_of_nonpos (abs_nonneg _) hlt.le
          constructor
          · intro h; linarith
          · intro h; linarith
        · rw [heq]
          norm_num
        · have hm0 : ¬ m = 0 := hgt.ne'
          rw [if_pos hgt, if_neg hm0, abs_div, abs_of_pos hgt]

/-! ## C5 — quantity z-score detector -/

/-- A population variance is nonnegative. -/
lemma listVar_nonneg (xs : List ℚ) : 0 ≤ listVar xs := by
  unfold listVar
  apply div_nonneg
  · apply List.sum_nonneg
    intro x hx
    simp only [List.mem_map] at hx
    obtain ⟨y, -, rfl⟩ := hx
    positivity
  · positivity

/-- The rational test embedded in the quantity detector agrees with the
real-valued z-score rule `z = |c - m| / std` (`z = 0` when `std = 0`),
`anomaly iff z > 3`, where `std` is the square root of the variance. -/
lemma zscore_flag_iff (c m v : ℚ) (hv : 0 ≤ v) :
    (0 < v ∧ 9 * v < (c - m) ^ 2) ↔
      (3 : ℝ) <
        (if 0 < Real.sqrt (v : ℝ) then
          |(c : ℝ) - (m : ℝ)| / Real.sqrt (v : ℝ)
        else 0) := by
  obtain rfl | hpos := hv.eq_or_lt
  · norm_num [Real.sqrt_zero]
  · have hvR : (0 : ℝ) < (v : ℝ) := by exact_mod_cast hpos
    have hs : 0 < Real.sqrt (v : ℝ) := Real.sqrt_pos.mpr hvR
    rw [if_pos hs, lt_div_iff₀ hs]
    constructor
    · rintro ⟨-, h⟩
      have hR : (9 : ℝ) * (v : ℝ) < ((c : ℝ) - (m : ℝ)) ^ 2 := by
        exact_mod_cast h
      refine (pow_lt_pow_iff_left₀ (by positivity) (abs_nonneg _)
        two_ne_zero).mp ?_
      rw [mul_pow, Real.sq_sqrt hvR.le, sq_abs]
      linarith
    · intro h
      refine ⟨hpos, ?_⟩
      have h2 := (pow_lt_pow_iff_left₀ (by positivity) (abs_nonneg _)
        two_ne_zero).mpr h
      rw [mul_pow, Real.sq_sqrt hvR.le, sq_abs] at h2
      have hR : (9 : ℝ) * (v : ℝ) < ((c : ℝ) - (m : ℝ)) ^ 2 := by linarith
      exact_mod_cast hR

/-- C5: with fewer than 10 positive historical quantities the quantity
detector returns `false` with no evidence; otherwise its flag is set iff the
real-valued z-score `|current - mean| / std` (taken as 0 when `std = 0`,
avoiding the division by zero) exceeds 3, where `std` is the square root of
the population variance of the positive historical quantities and `current`
is `transaction.get('quantity', 0)`. -/
theorem check_quantity_anomaly_spec (t : Transaction)
    (H : List Transaction) :
    ((positiveQuantities H).length < 10 →
      check_quantity_anomaly t H =
        { check := "quantity", is_anomaly := false }) ∧
    (10 ≤ (positiveQuantities H).length →
      ((check_quantity_anomaly t H).is_anomaly = true ↔
        (3 : ℝ) <
          (if 0 < Real.sqrt ((listVar (positiveQuantities H) : ℚ) : ℝ) then
            |((t.quantity.getD 0 : ℚ) : ℝ) -
                ((listMean (positiveQuantities H) : ℚ) : ℝ)| /
              Real.sqrt ((listVar (positiveQuantities H) : ℚ) : ℝ)
          else 0))) := by
  constructor
  · intro h
    simp [check_quantity_anomaly, h]
  · intro h
    have hflag : (check_quantity_anomaly t H).is_anomaly = true ↔
        (0 < listVar (positiveQuantities H) ∧
          9 * listVar (positiveQuantities H) <
            (t.quantity.getD 0 - listMean (positiveQuantities H)) ^ 2) := by
      simp [check_quantity_anomaly, Nat.not_lt.mpr h]
    rw [hflag]
    exact zscore_flag_iff _ _ _ (listVar_nonneg _)

/-- Witness for C5: the empty window exercises the insufficient-data gate,
and `histSeven` (ten positive quantities) exercises the z-score branch. -/
theorem check_quantity_anomaly_spec_witness :
    (positiveQuantities []).length < 10 ∧
    check_quantity_anomaly txnPlain [] =
      { check := "quantity", is_anomaly := false } ∧
    10 ≤ (positiveQuantities histSeven).length ∧
    ((check_quantity_anomaly txnSeven histSeven).is_anomaly = true ↔
      (3 : ℝ) <
        (if 0 < Real.sqrt ((listVar (positiveQuantities histSeven) : ℚ) : ℝ)
            then
          |((txnSeven.quantity.getD 0 : ℚ) : ℝ) -
              ((listMean (positiveQuantities histSeven) : ℚ) : ℝ)| /
            Real.sqrt ((listVar (positiveQuantities histSeven) : ℚ) : ℝ)
        else 0)) := by
  have h1 : (positiveQuantities []).length < 10 := by simp [positiveQuantities]
  have h2 : (10 : ℕ) ≤ (positiveQuantities histSeven).length := by
    norm_num [positiveQuantities, histSeven, sevenA, sevenB]
  exact ⟨h1, (check_quantity_anomaly_spec txnPlain []).1 h1, h2,
    (check_quantity_anomaly_spec txnSeven histSeven).2 h2⟩

/-! ## C1 — aggregation: risk score quarters and the >0.5 escalation rule -/

/-- `k/4` for `k ≤ 4` lies in `{0, 1/4, 1/2, 3/4, 1}`. -/
lemma quarter_mem (k : ℕ) (hk : k ≤ 4) :
    (k : ℚ) / 4 = 0 ∨ (k : ℚ) / 4 = 1/4 ∨ (k : ℚ) / 4 = 1/2 ∨
      (k : ℚ) / 4 = 3/4 ∨ (k : ℚ) / 4 = 1 := by
  interval_cases k <;> norm_num

/-- `k/4 > 1/2` over the rationals iff `k ≥ 3` (so 2 of 4 does not pass). -/
lemma half_lt_quarters (k : ℕ) : (1 : ℚ)/2 < (k : ℚ)/4 ↔ 3 ≤ k := by
  constructor
  · intro h
    by_contra hlt
    push_neg at hlt
    have hle : (k : ℚ) ≤ 2 := by exact_mod_cast Nat.lt_succ_iff.mp hlt
    linarith
  · intro h
    have hge : (3 : ℚ) ≤ (k : ℚ) := by exact_mod_cast h
    linarith

/-- Characterization of `analyze_transaction` on a window of at least 10
transactions: the four detectors run in the fixed order, the score is the
flag count over 4, and the `> 0.5` comparison decides both the verdict and
the alert emission. -/
lemma analyze_transaction_run (agent : RiskAgent) (forest : ForestModel)
    (t : Transaction) (e : Entities) (H : List Transaction)
    (h : ¬ H.length < 10) :
    analyze_transaction agent forest t e H =
      (let checks := [check_amount_anomaly agent forest t H,
                      check_quantity_anomaly t H,
                      check_unusual_timing t H,
                      check_price_deviation t H e]
       let k := checks.countP (fun r => r.is_anomaly)
       if (1 : ℚ)/2 < (k : ℚ)/4 then
         ({ anomaly_detected := true, risk_score := (k : ℚ)/4,
            message := some (generate_risk_message checks),
            details := checks },
          [{ alert_type := "fraud_risk",
             message := generate_risk_message checks, severity := "high" }])
       else
         ({ anomaly_detected := false, risk_score := (k : ℚ)/4,
            message := none, details := checks }, [])) := by
  simp only [analyze_transaction, if_neg h, List.length_cons, List.length_nil,
    gt_iff_lt]
  norm_num

/-- C1: on any window of at least 10 transactions, the risk score is the
number of flagged detectors divided by the fixed detector count 4, hence in
`{0, 1/4, 1/2, 3/4, 1}`, and the verdict is anomalous iff the score strictly
exceeds 1/2, i.e. iff at least 3 of the 4 detectors flagged. -/
theorem analyze_transaction_scoring (agent : RiskAgent)
    (forest : ForestModel) (t : Transaction) (e : Entities)
    (H : List Transaction) (h : 10 ≤ H.length) :
    ((analyze_transaction agent forest t e H).1.risk_score =
      ((analyze_transaction agent forest t e H).1.details.countP
          (fun r => r.is_anomaly) : ℚ) / 4) ∧
    ((analyze_transaction agent forest t e H).1.risk_score = 0 ∨
      (analyze_transaction agent forest t e H).1.risk_score = 1/4 ∨
      (analyze_transaction agent forest t e H).1.risk_score = 1/2 ∨
      (analyze_transaction agent forest t e H).1.risk_score = 3/4 ∨
      (analyze_transaction agent forest t e H).1.risk_score = 1) ∧
    ((analyze_transaction agent forest t e H).1.anomaly_detected = true ↔
      (1 : ℚ)/2 < (analyze_transaction agent forest t e H).1.risk_score) ∧
    ((analyze_transaction agent forest t e H).1.anomaly_detected = true ↔
      3 ≤ (analyze_transaction agent forest t e H).1.details.countP
        (fun r => r.is_anomaly)) := by
  have h' : ¬ H.length < 10 := Nat.not_lt.mpr h
  rw [analyze_transaction_run agent forest t e H h']
  set checks := [check_amount_anomaly agent forest t H,
                 check_quantity_anomaly t H,
                 check_unusual_timing t H,
                 check_price_deviation t H e] with hchecks
  have hk4 : checks.countP (fun r => r.is_anomaly) ≤ 4 := by
    have := List.countP_le_length (l := checks) (p := fun r => r.is_anomaly)
    simpa [hchecks] using this
  dsimp only
  split
  · next hc =>
    refine ⟨rfl, quarter_mem _ hk4, by simpa [one_div] using hc, ?_⟩
    rw [half_lt_quarters] at hc
    simp [hc]
  · next hc =>
    refine ⟨rfl, quarter_mem _ hk4,
      by simpa [one_div] using not_lt.mp hc, ?_⟩
    rw [half_lt_quarters] at hc
    simp [hc]

/-- Witness for C1 on a 10-transaction window with no flags. -/
theorem analyze_transaction_scoring_witness :
    10 ≤ histBusy.length ∧
    ((analyze_transaction RiskAgent.init forestFalse txnPlain {}
        histBusy).1.risk_score =
      ((analyze_transaction RiskAgent.init forestFalse txnPlain {}
          histBusy).1.details.countP (fun r => r.is_anomaly) : ℚ) / 4) ∧
    ((analyze_transaction RiskAgent.init forestFalse txnPlain {}
        histBusy).1.anomaly_detected = true ↔
      3 ≤ (analyze_transaction RiskAgent.init forestFalse txnPlain {}
          histBusy).1.details.countP (fun r => r.is_anomaly)) := by
  have h10 : (10 : ℕ) ≤ histBusy.length := by norm_num [histBusy]
  exact ⟨h10,
    (analyze_transaction_scoring RiskAgent.init forestFalse txnPlain {}
      histBusy h10).1,
    (analyze_transaction_scoring RiskAgent.init forestFalse txnPlain {}
      histBusy h10).2.2.2⟩

/-! ## C6 — detector failures are absorbed, all four results kept -/

/-- C6: on any window of at least 10 transactions the aggregator receives
and keeps all four detector results, in the fixed order; every result's flag
is a well-defined boolean, and any result carrying an error note (a caught
detector failure, e.g. an unparsable timestamp) has flag `false` — a
detector failure never removes a result or aborts the call (the embedding of
`analyze_transaction` is a total function). -/
theorem analyze_transaction_absorbs_detector_failures (agent : RiskAgent)
    (forest : ForestModel) (t : Transaction) (e : Entities)
    (H : List Transaction) (h : 10 ≤ H.length) :
    ((analyze_transaction agent forest t e H).1.details =
      [check_amount_anomaly agent forest t H,
       check_quantity_anomaly t H,
       check_unusual_timing t H,
       check_price_deviation t H e]) ∧
    (∀ r ∈ (analyze_transaction agent forest t e H).1.details,
      r.error.isSome → r.is_anomaly = false) := by
  have h' : ¬ H.length < 10 := Nat.not_lt.mpr h
  have hdet : (analyze_transaction agent forest t e H).1.details =
      [check_amount_anomaly agent forest t H,
       check_quantity_anomaly t H,
       check_unusual_timing t H,
       check_price_deviation t H e] := by
    rw [analyze_transaction_run agent forest t e H h']
    dsimp only
    split <;> rfl
  refine ⟨hdet, ?_⟩
  rw [hdet]
  intro r hr herr
  simp only [List.mem_cons, List.not_mem_nil, or_false] at hr
  rcases hr with rfl | rfl | rfl | rfl
  · rw [check_amount_anomaly_error_none] at herr
    simp at herr
  · rw [check_quantity_anomaly_error_none] at herr
    simp at herr
  · exact check_unusual_timing_error_flag t H herr
  · rw [check_price_deviation_error_none] at herr
    simp at herr

/-- Witness for C6: a current transaction with an unparsable timestamp; the
timing detector's caught failure sits in the kept result list as a
non-anomalous result with an error note. -/
theorem analyze_transaction_absorbs_detector_failures_witness :
    10 ≤ histBusy.length ∧
    ((analyze_transaction RiskAgent.init forestFalse txnPlain {}
        histBusy).1.details =
      [check_amount_anomaly RiskAgent.init forestFalse txnPlain histBusy,
       check_quantity_anomaly txnPlain histBusy,
       check_unusual_timing txnPlain histBusy,
       check_price_deviation txnPlain histBusy {}]) ∧
    (check_unusual_timing txnPlain histBusy).error.isSome = true ∧
    (check_unusual_timing txnPlain histBusy).is_anomaly = false := by
  have h10 : (10 : ℕ) ≤ histBusy.length := by norm_num [histBusy]
  have hmem : check_unusual_timing txnPlain histBusy ∈
      (analyze_transaction RiskAgent.init forestFalse txnPlain {}
        histBusy).1.details := by
    rw [(analyze_transaction_absorbs_detector_failures RiskAgent.init
      forestFalse txnPlain {} histBusy h10).1]
    simp
  exact ⟨h10,
    (analyze_transaction_absorbs_detector_failures RiskAgent.init
      forestFalse txnPlain {} histBusy h10).1,
    rfl,
    (analyze_transaction_absorbs_detector_failures RiskAgent.init
      forestFalse txnPlain {} histBusy h10).2 _ hmem rfl⟩

/-! ## C7 — alert emission and explanation structure -/

/-- C7: exactly one alert is emitted iff the verdict is anomalous, typed
`fraud_risk` with severity fixed at `high` and the generated explanation as
its message (also stored in the response); the explanation concatenates one
clause per flagged detector, in the order the results appear (the fixed
detector order amount, quantity, timing, price), joined with `", "` and
prefixed by `"Suspicious transaction detected: "`, and falls back to
`"Transaction appears normal"` when no detector is flagged. -/
theorem analyze_transaction_alert_spec (agent : RiskAgent)
    (forest : ForestModel) (t : Transaction) (e : Entities)
    (H : List Transaction) :
    ((analyze_transaction agent forest t e H).1.anomaly_detected = true →
      (analyze_transaction agent forest t e H).2 =
        [{ alert_type := "fraud_risk",
           message := generate_risk_message
             (analyze_transaction agent forest t e H).1.details,
           severity := "high" }] ∧
      (analyze_transaction agent forest t e H).1.message =
        some (generate_risk_message
          (analyze_transaction agent forest t e H).1.details)) ∧
    ((analyze_transaction agent forest t e H).1.anomaly_detected = false →
      (analyze_transaction agent forest t e H).2 = []) ∧
    (∀ checks : List DetectorResult,
      checks.filter (fun r => r.is_anomaly) = [] →
        generate_risk_message checks = "Transaction appears normal") ∧
    (∀ checks : List DetectorResult,
      checks.filter (fun r => r.is_anomaly) ≠ [] →
        generate_risk_message checks =
          "Suspicious transaction detected: " ++
            String.intercalate ", "
              ((checks.filter (fun r => r.is_anomaly)).filterMap
                riskClause)) := by
  refine ⟨?_, ?_, fun checks hc => ?_, fun checks hc => ?_⟩
  · by_cases h' : H.length < 10
    · intro h1
      simp [analyze_transaction, if_pos h'] at h1
    · rw [analyze_transaction_run agent forest t e H h']
      dsimp only
      split
      · intro _
        exact ⟨rfl, rfl⟩
      · intro h1
        simp at h1
  · by_cases h' : H.length < 10
    · intro _
      simp [analyze_transaction, if_pos h']
    · rw [analyze_transaction_run agent forest t e H h']
      dsimp only
      split
      · intro h1
        simp at h1
      · intro _
        rfl
  · simp [generate_risk_message, hc]
  · simp [generate_risk_message, hc]

/-- Witness for C7: on `histSeven` with an always-outlier model, the amount,
quantity and timing detectors flag (3 of 4), so the verdict is anomalous and
exactly one `fraud_risk` / `high` alert carrying the explanation is emitted. -/
theorem analyze_transaction_alert_spec_witness :
    (analyze_transaction RiskAgent.init forestTrue txnSeven {}
        histSeven).1.anomaly_detected = true ∧
    (analyze_transaction RiskAgent.init forestTrue txnSeven {}
        histSeven).2 =
      [{ alert_type := "fraud_risk",
         message := generate_risk_message
           (analyze_transaction RiskAgent.init forestTrue txnSeven {}
             histSeven).1.details,
         severity := "high" }] ∧
    (analyze_transaction RiskAgent.init forestTrue txnSeven {}
        histSeven).1.message =
      some (generate_risk_message
        (analyze_transaction RiskAgent.init forestTrue txnSeven {}
          histSeven).1.details) := by
  have hA : (check_amount_anomaly RiskAgent.init forestTrue txnSeven
      histSeven).is_anomaly = true := by
    norm_num [check_amount_anomaly, positiveAmounts, histSeven, sevenA,
      sevenB, forestTrue]
  have hq7 : positiveQuantities histSeven = [1, 1, 1, 1, 1, 1, 1, 1, 1, 2] :=
    by norm_num [positiveQuantities, histSeven, sevenA, sevenB]
  have hmean7 : listMean [(1 : ℚ), 1, 1, 1, 1, 1, 1, 1, 1, 2] = 11/10 := by
    norm_num [listMean]
  have hvar7 : listVar [(1 : ℚ), 1, 1, 1, 1, 1, 1, 1, 1, 2] = 9/100 := by
    rw [listVar, hmean7]; norm_num
  have hQ : (check_quantity_anomaly txnSeven histSeven).is_anomaly = true :=
    by
    simp only [check_quantity_anomaly, hq7, hmean7, hvar7]
    norm_num [txnSeven]
  have hT : (check_unusual_timing txnSeven histSeven).is_anomaly = true := by
    have hp : parseHours histSeven = some [9, 9, 9, 9, 9, 9, 9, 9, 9, 9] :=
      rfl
    simp [check_unusual_timing, txnSeven, hp]
  have hP : (check_price_deviation txnSeven histSeven {}).is_anomaly =
      false := rfl
  have h' : ¬ histSeven.length < 10 := by norm_num [histSeven]
  have hdet : (analyze_transaction RiskAgent.init forestTrue txnSeven {}
      histSeven).1.anomaly_detected = true := by
    rw [analyze_transaction_run RiskAgent.init forestTrue txnSeven {}
      histSeven h']
    dsimp only
    rw [List.countP_cons, List.countP_cons, List.countP_cons,
      List.countP_cons, List.countP_nil]
    simp only [hA, hQ, hT, hP]
    norm_num
  exact ⟨hdet,
    ((analyze_transaction_alert_spec RiskAgent.init forestTrue txnSeven {}
      histSeven).1 hdet).1,
    ((analyze_transaction_alert_spec RiskAgent.init forestTrue txnSeven {}
      histSeven).1 hdet).2⟩
